import Mathlib

/-!
Shallow embedding of `src/dhcp/rest-api.c` (the DHCP supplicant control
component of wicked): the random-seed initializer, the device-state
renderer, the REST handlers (`GET device`, `PUT interface`,
`DELETE interface`), the device-event notifier, the event loop and the
shutdown sequence.  External subsystems (device registry, lease state
machine, XML codec) appear as explicit parameters or as definitions
modelled from the specification, each marked as such.
-/

namespace Wicked

/-! ## Random seed initializer (`ni_srandom`) -/

/-- Outcome of the attempt to read 4 bytes of entropy from `/dev/urandom`:
either the `open` failed, or `read` returned `n` bytes whose (partial)
little-endian value is `v`.  `n < 4` covers both read errors (`-1`) and
short reads. -/
inductive EntropyRead where
  | openFailed : EntropyRead
  | readBytes (n : Nat) (v : Nat) : EntropyRead
deriving DecidableEq, Repr

/-- The value of the local `seed` variable after the entropy block of
`ni_srandom`: `seed` starts at 0; on a successful open, `if (read(fd, &seed, 4) < 4) seed = 0;`
discards any partial read, otherwise the 4 read bytes are the 32-bit seed. -/
def ni_srandom_entropy : EntropyRead → Nat
  | .openFailed => 0
  | .readBytes n v => if n < 4 then 0 else v % 2 ^ 32

/-- The fallback seed derivation of `ni_srandom` when the entropy seed is 0:
`seed = tv.tv_usec ^ tv.tv_usec / 1024; seed = seed ^ tv.tv_sec; seed = seed ^ getpid();`
with `seed` a `uint32_t`, so every assignment truncates mod `2^32`. -/
def ni_srandom_fallback (usec sec pid : Nat) : Nat :=
  let s1 := (usec ^^^ usec / 1024) % 2 ^ 32
  let s2 := (s1 ^^^ sec) % 2 ^ 32
  (s2 ^^^ pid) % 2 ^ 32

/-- The seed value `ni_srandom` finally passes to `srandom`, as a function of
the entropy read outcome and of the wall clock / pid consulted on the
fallback path. -/
def ni_srandom_seed (e : EntropyRead) (usec sec pid : Nat) : Nat :=
  let seed := ni_srandom_entropy e
  if seed = 0 then ni_srandom_fallback usec sec pid else seed

/-! ## Data model -/

/-- Lease-machine states of a device as exercised by `rest-api.c`:
`NI_DHCP_STATE_REQUESTING`, `NI_DHCP_STATE_RENEWING`, `NI_DHCP_STATE_REBINDING`
and `NI_DHCP_STATE_BOUND` are named in the shutdown switch and in the
`dev->state != NI_DHCP_STATE_BOUND` test; `init` stands for the inactive
state a freshly created or stopped device is in, and `otherState` for any
further state of the external machine (none is distinguished by this file). -/
inductive DhcpState where
  | init : DhcpState
  | requesting : DhcpState
  | renewing : DhcpState
  | rebinding : DhcpState
  | bound : DhcpState
  | otherState : DhcpState
deriving DecidableEq, Repr

/-- Address family carried by a lease (`AF_INET` is the only one this
component produces). -/
inductive AddrFamily where
  | inet : AddrFamily
  | inet6 : AddrFamily
deriving DecidableEq, Repr

/-- Address-configuration kind of a lease (`NI_ADDRCONF_DHCP` is the only one
this component produces). -/
inductive AddrconfKind where
  | dhcp : AddrconfKind
  | otherKind : AddrconfKind
deriving DecidableEq, Repr

/-- Lease status values exercised by `rest-api.c`: `NI_ADDRCONF_STATE_FAILED`
and `NI_ADDRCONF_STATE_RELEASED` are assigned to the dummy lease; `granted`
stands for the status of a real lease held by a bound device; `otherStatus`
for any further status of the external codec. -/
inductive LeaseState where
  | granted : LeaseState
  | failed : LeaseState
  | released : LeaseState
  | otherStatus : LeaseState
deriving DecidableEq, Repr

/-- An `ni_addrconf_lease_t` as seen by this component: family, kind, status,
and the protocol payload (addresses, timers, ...) owned by the external codec,
abstracted to a single number; `memset(&dummy, 0, sizeof(dummy))` gives the
dummy lease payload 0. -/
structure Lease where
  family : AddrFamily
  kind : AddrconfKind
  state : LeaseState
  payload : Nat
deriving DecidableEq, Repr

/-- Desired interface configuration parsed out of a `PUT` body
(`ni_interface_t` fields used by `rest-api.c`): name, link type, and the
`IFF_UP` / `IFF_LOWER_UP` flags. -/
structure IfaceConfig where
  name : String
  linkType : Nat
  up : Bool
  lowerUp : Bool
deriving DecidableEq, Repr

/-- An `ni_dhcp_device_t` as used by `rest-api.c`: interface name, link type,
lease-machine state, optional current lease, failure flag, optional desired
configuration, and the pending-notify flag. -/
structure DhcpDevice where
  ifname : String
  linkType : Nat
  state : DhcpState
  lease : Option Lease
  failed : Bool
  config : Option IfaceConfig
  notify : Bool
deriving DecidableEq, Repr

/-- The process-wide active-device set (`ni_dhcp_active`), a list of device
records owned by the external registry. -/
abbrev Registry := List DhcpDevice

/-- `ni_dhcp_device_find`: look a device up in the registry by interface
name. -/
def ni_dhcp_device_find (reg : Registry) (n : String) : Option DhcpDevice :=
  reg.find? (fun d => d.ifname = n)

/-- Modelled from the spec: `ni_dhcp_device_new` is not part of the given
source; per the spec a created device carries the requested name and link
type and no lease, failure, configuration or pending notification yet. -/
def ni_dhcp_device_new (n : String) (ty : Nat) : DhcpDevice :=
  { ifname := n, linkType := ty, state := .init, lease := none,
    failed := false, config := none, notify := false }

/-- Modelled from the spec: `ni_dhcp_device_reconfigure` is not part of the
given source; per the spec it applies the desired configuration to the
device (whether it reports a material change is external and is passed to
the handler as an oracle). -/
def ni_dhcp_device_reconfigure (d : DhcpDevice) (cfg : IfaceConfig) : DhcpDevice :=
  { d with config := some cfg }

/-- Modelled from the spec: `ni_dhcp_device_stop` is not part of the given
source; per the spec it stops DHCP management for the device — the device
returns to the inactive lease-machine state and no longer holds a lease or a
desired configuration (no protocol-level release is performed). -/
def ni_dhcp_device_stop (d : DhcpDevice) : DhcpDevice :=
  { d with state := .init, lease := none, config := none }

/-- Replace the device registered under name `n` by its image under `f`
(the in-place mutation of a registry-owned device record through the pointer
returned by `ni_dhcp_device_find`). -/
def updateDevice (reg : Registry) (n : String) (f : DhcpDevice → DhcpDevice) : Registry :=
  reg.map (fun d => if d.ifname = n then f d else d)

/-! ## Device state renderer (`dhcp_device_xml`) -/

/-- A rendered XML document, abstracted to its text. -/
abbrev Xml := List Char

/-- The external XML codec `ni_syntax_xml_from_lease`: renders a lease to a
document, or fails (returns `NULL`). -/
abbrev Codec := Lease → Option Xml

/-- The lease object `dhcp_device_xml` submits to the XML codec: the zeroed
dummy with kind DHCP and family IPv4 and status FAILED when the device is
marked failed, else the device's own lease verbatim when it holds one, else
the dummy with status RELEASED. -/
def dhcp_device_xml_lease (dev : DhcpDevice) : Lease :=
  if dev.failed then
    { family := .inet, kind := .dhcp, state := .failed, payload := 0 }
  else
    match dev.lease with
    | some l => l
    | none => { family := .inet, kind := .dhcp, state := .released, payload := 0 }

/-- `dhcp_device_xml`: render the device's current status through the
external codec. -/
def dhcp_device_xml (codec : Codec) (dev : DhcpDevice) : Option Xml :=
  codec (dhcp_device_xml_lease dev)

/-! ## GET device/<name> (`dhcp_device_get`) -/

/-- Result of `dhcp_device_get`: the `werror` failure paths (missing name,
unknown device, render failure) or success with the rendered body attached
to `req->xml_out`. -/
inductive GetResult where
  | invalidInput : GetResult
  | notFound : GetResult
  | renderError : GetResult
  | ok (body : Xml) : GetResult
deriving DecidableEq, Repr

/-- `dhcp_device_get` (with `dhcp_device_response` inlined): requires a name,
looks the device up, renders it; the registry is returned alongside the
result to expose that the handler never mutates it. -/
def dhcp_device_get (codec : Codec) (ifname : Option String) (reg : Registry) :
    GetResult × Registry :=
  match ifname with
  | none => (.invalidInput, reg)
  | some n =>
    match ni_dhcp_device_find reg n with
    | none => (.notFound, reg)
    | some dev =>
      match dhcp_device_xml codec dev with
      | none => (.renderError, reg)
      | some body => (.ok body, reg)

/-! ## PUT interface/<name> (`dhcp_interface_put`) -/

/-- Requests the handlers address to the external lease state machine. -/
inductive ReqAction where
  | start (n : String) : ReqAction
  | stop (n : String) : ReqAction
  | release (n : String) : ReqAction
deriving DecidableEq, Repr

/-- Result code of `dhcp_interface_put`: the `werror` failure paths, success
(`rv = 0`), or the undefined behaviour the source reaches by dereferencing
the null device pointer at `dev->notify = 1` when the configuration is
administratively down and no device is registered. -/
inductive PutResult where
  | invalidInput : PutResult
  | dummyOpenFailed : PutResult
  | parseError : PutResult
  | cfgNotFound : PutResult
  | ok : PutResult
  | nullDeref : PutResult
deriving DecidableEq, Repr

/-- Full outcome of `dhcp_interface_put`: result code, the registry after the
handler's mutations, the requests issued to the external machine, and the
final value of the local `reacquire` flag. -/
structure PutOutcome where
  rv : PutResult
  registry : Registry
  actions : List ReqAction
  reacquire : Bool
deriving DecidableEq, Repr

/-- `dhcp_interface_put`.  Inputs mirror the source's environment:
`dummyOpenOk` is whether `ni_dummy_open` succeeds, `parsed` the outcome of
`__ni_syntax_xml_to_all` on the request body (a store of interface
configurations, `none` on parse failure), `reconfigChanged` the external
report of `ni_dhcp_device_reconfigure` on an existing device.  The admin-down
path calls `ni_dhcp_device_stop(dev)` with `dev` possibly null (modelled
null-safe) and then unconditionally executes `dev->notify = 1` because
`reacquire` is still 0, which is a null dereference when no device was
registered. -/
def dhcp_interface_put (ifname : Option String) (dummyOpenOk : Bool)
    (parsed : Option (List IfaceConfig)) (reconfigChanged : Bool)
    (reg : Registry) : PutOutcome :=
  match ifname with
  | none => ⟨.invalidInput, reg, [], false⟩
  | some n =>
    if ¬dummyOpenOk then ⟨.dummyOpenFailed, reg, [], false⟩
    else
      match parsed with
      | none => ⟨.parseError, reg, [], false⟩
      | some store =>
        match store.find? (fun c => c.name = n) with
        | none => ⟨.cfgNotFound, reg, [], false⟩
        | some ifp =>
          match ni_dhcp_device_find reg ifp.name with
          | some dev0 =>
            if ifp.up then
              let dev1 := ni_dhcp_device_reconfigure dev0 ifp
              let reacq := reconfigChanged || decide (dev1.state ≠ .bound)
              let reg1 := updateDevice reg ifp.name (fun _ => dev1)
              if ¬reacq then
                ⟨.ok, updateDevice reg1 ifp.name (fun d => { d with notify := true }), [], false⟩
              else if dev1.config.isSome then
                ⟨.ok, reg1, [.start ifp.name], true⟩
              else
                ⟨.ok, reg1, [], true⟩
            else
              let dev1 := ni_dhcp_device_stop dev0
              let reg1 := updateDevice reg ifp.name (fun _ => dev1)
              -- reacquire is 0 on this path, so `dev->notify = 1` runs
              ⟨.ok, updateDevice reg1 ifp.name (fun d => { d with notify := true }),
                [.stop ifp.name], false⟩
          | none =>
            if ifp.up then
              let dev1 := ni_dhcp_device_reconfigure
                (ni_dhcp_device_new ifp.name ifp.linkType) ifp
              let reg1 := dev1 :: reg
              -- reacquire = 1 unconditionally on the creation path
              if dev1.config.isSome then
                ⟨.ok, reg1, [.start ifp.name], true⟩
              else
                ⟨.ok, reg1, [], true⟩
            else
              -- ni_dhcp_device_stop(NULL), then `dev->notify = 1` on NULL
              ⟨.nullDeref, reg, [], false⟩

/-! ## DELETE interface/<name> (`dhcp_interface_delete`) -/

/-- Result of `dhcp_interface_delete`: missing name, or success (`rv = 0`,
whether or not a device existed). -/
inductive DeleteResult where
  | invalidInput : DeleteResult
  | ok : DeleteResult
deriving DecidableEq, Repr

/-- `dhcp_interface_delete`: requires a name; stops the registered device if
there is one; succeeds either way.  Returns the result code, the registry
after the stop request, and the requests issued. -/
def dhcp_interface_delete (ifname : Option String) (reg : Registry) :
    DeleteResult × Registry × List ReqAction :=
  match ifname with
  | none => (.invalidInput, reg, [])
  | some n =>
    match ni_dhcp_device_find reg n with
    | some _ => (.ok, updateDevice reg n ni_dhcp_device_stop, [.stop n])
    | none => (.ok, reg, [])

/-! ## Device event notifier (`ni_dhcp_send_device_event`) -/

/-- The event message `ni_dhcp_send_device_event` formats:
`fprintf(fp, "POST /system/event/%s\n\n", dev->ifname)` followed by the
rendered document. -/
def eventMessage (ifname : String) (doc : Xml) : List Char :=
  ("POST /system/event/" ++ ifname ++ "\n\n").toList ++ doc

/-- Outcome of `ni_dhcp_send_device_event`: rendering failed (logged and
skipped), or the message bytes handed to the single `write` call, or the
undefined behaviour of overflowing the fixed 65536-byte `event` buffer —
`fmemopen` silently truncates the stream at the buffer size, leaves no room
for the terminating NUL, and the subsequent `strlen(event)` reads past the
buffer; no error is checked on this path. -/
inductive EventOutcome where
  | renderSkipped : EventOutcome
  | wrote (msg : List Char) : EventOutcome
  | bufferOverrun : EventOutcome
deriving DecidableEq, Repr

/-- `ni_dhcp_send_device_event`: render the device, format the framed
message into the 65536-byte buffer, write it once.  A message needs its
length plus one NUL byte to fit, hence the `≤ 65535` bound. -/
def ni_dhcp_send_device_event (codec : Codec) (dev : DhcpDevice) : EventOutcome :=
  match dhcp_device_xml codec dev with
  | none => .renderSkipped
  | some doc =>
    let msg := eventMessage dev.ifname doc
    if msg.length ≤ 65535 then .wrote msg else .bufferOverrun

/-! ## Shutdown sequence (tail of `ni_dhcp_run`) -/

/-- A request of the shutdown loop to the external machine, tagged by the
position of the device in the active list (each list node is one device). -/
inductive ShutdownAction where
  | release (i : Nat) : ShutdownAction
  | stop (i : Nat) : ShutdownAction
deriving DecidableEq, Repr

/-- The `switch (dev->state)` / `if (dev->lease)` guard of the shutdown
loop: release is requested only in states REQUESTING, RENEWING, REBINDING or
BOUND and only when a lease is held. -/
def shutdownReleases (d : DhcpDevice) : Bool :=
  (match d.state with
   | .requesting | .renewing | .rebinding | .bound => true
   | _ => false) && d.lease.isSome

/-- The requests issued by the shutdown loop over the active list, the device
at position `k` of the whole list being the head: an optional
`ni_dhcp_fsm_release`, then an unconditional `ni_dhcp_device_stop`, per
device in order. -/
def shutdownActions : List DhcpDevice → Nat → List ShutdownAction
  | [], _ => []
  | d :: rest, k =>
    (if shutdownReleases d then [ShutdownAction.release k] else [])
      ++ ShutdownAction.stop k :: shutdownActions rest (k + 1)

/-- The whole shutdown sequence of `ni_dhcp_run`: the loop over
`ni_dhcp_active` followed by `exit(0)` — the exit status is 0 on every
input. -/
def ni_dhcp_run_shutdown (devs : List DhcpDevice) : List ShutdownAction × Nat :=
  (shutdownActions devs 0, 0)

/-! ## Event loop (`ni_dhcp_run`) -/

/-- Signal timing for one iteration of the event loop: whether a termination
signal is delivered while the iteration blocks in `ni_socket_wait` (or at any
point before the `ni_dhcp_stop` check), and whether one is delivered after
the check, i.e. during `ni_dhcp_fsm_check_timeout` or the changed-device
drain.  The handler only stores the signal number into `ni_dhcp_stop`. -/
structure IterSignals where
  duringWait : Bool
  afterCheck : Bool
deriving DecidableEq, Repr

/-- Observable steps of one loop iteration: the blocking wait (during which
request handling runs to completion), the single read of `ni_dhcp_stop`, the
timer sweep `ni_dhcp_fsm_check_timeout`, and the drain of changed devices
through the notifier. -/
inductive LoopEvent where
  | waitEv : LoopEvent
  | checkStopEv : LoopEvent
  | sweepEv : LoopEvent
  | drainEv : LoopEvent
deriving DecidableEq, Repr

/-- One iteration of the `while (1)` body as the source orders it: wait,
then the one flag check — on a set flag the loop breaks immediately, before
that iteration's timer sweep and drain. -/
def iterEvents (flagAtCheck : Bool) : List LoopEvent :=
  [.waitEv, .checkStopEv] ++ if flagAtCheck then [] else [.sweepEv, .drainEv]

/-- The event trace of the loop: `flag` is the value of `ni_dhcp_stop` on
entry to the iteration, each `IterSignals` says when signals arrive during
that iteration, and the trace ends when the flag check observes a set flag
(the signal list running out ends the trace without shutdown). -/
def runLoop : Bool → List IterSignals → List LoopEvent
  | _, [] => []
  | flag, sig :: rest =>
    let atCheck := flag || sig.duringWait
    iterEvents atCheck ++ if atCheck then [] else runLoop sig.afterCheck rest

/-! ## Startup order of `ni_dhcp_run` -/

/-- The phases of `ni_dhcp_run` in source order: `ni_srandom()` first, then
signal-handler installation and socket activation, then the event loop, then
the shutdown sequence and `exit(0)`. -/
inductive RunStep where
  | srandomStep (seed : Nat) : RunStep
  | installHandlersStep : RunStep
  | activateStep : RunStep
  | loopStep (ev : LoopEvent) : RunStep
  | shutdownStep (a : ShutdownAction) : RunStep
  | exitStep (status : Nat) : RunStep
deriving DecidableEq, Repr

/-- The full trace of `ni_dhcp_run`, parameterised by the environment the
process meets: the entropy read, the wall clock and pid consulted by
`ni_srandom`'s fallback, the signal schedule of the loop, and the active
list at shutdown. -/
def ni_dhcp_run (e : EntropyRead) (usec sec pid : Nat)
    (sigs : List IterSignals) (devs : List DhcpDevice) : List RunStep :=
  RunStep.srandomStep (ni_srandom_seed e usec sec pid)
    :: RunStep.installHandlersStep
    :: RunStep.activateStep
    :: (runLoop false sigs).map RunStep.loopStep
    ++ (shutdownActions devs 0).map RunStep.shutdownStep
    ++ [RunStep.exitStep 0]

/-! ## Theorems -/

/-- Claim C9: when the entropy-derived seed is zero (read failed or
legitimately returned zero), the generator is seeded exactly once, as the
first step of `ni_dhcp_run` and hence before the event loop starts, with the
32-bit value `(usec XOR (usec / 1024)) XOR sec XOR pid`; in particular for
microseconds 500000, seconds 1000000000 and pid 42 the seed equals
`(500000 XOR (500000/1024)) XOR 1000000000 XOR 42`. -/
theorem C9_fallback_seed (e : EntropyRead) (usec sec pid : Nat)
    (sigs : List IterSignals) (devs : List DhcpDevice)
    (h : ni_srandom_entropy e = 0) :
    (ni_dhcp_run e usec sec pid sigs devs).head?
        = some (RunStep.srandomStep
            ((((usec ^^^ usec / 1024) % 2 ^ 32 ^^^ sec) % 2 ^ 32 ^^^ pid) % 2 ^ 32))
    ∧ (ni_dhcp_run e usec sec pid sigs devs).countP
        (fun s => match s with | RunStep.srandomStep _ => true | _ => false) = 1
    ∧ ni_srandom_seed e 500000 1000000000 42
        = ((500000 ^^^ 500000 / 1024) ^^^ 1000000000) ^^^ 42 := by
  refine ⟨?_, ?_, ?_⟩
  · simp [ni_dhcp_run, ni_srandom_seed, h, ni_srandom_fallback]
  · simp [ni_dhcp_run, List.countP_append, List.countP_cons, List.countP_map,
      Function.comp, List.countP_eq_zero]
  · simp only [ni_srandom_seed, h, if_pos]
    decide

/-- Witness for C9 at the claim's concrete wall clock and pid, with a failed
entropy read. -/
theorem C9_fallback_seed_witness :
    (ni_dhcp_run EntropyRead.openFailed 500000 1000000000 42 [] []).head?
        = some (RunStep.srandomStep
            ((((500000 ^^^ 500000 / 1024) % 2 ^ 32 ^^^ 1000000000) % 2 ^ 32 ^^^ 42) % 2 ^ 32))
    ∧ ni_srandom_seed EntropyRead.openFailed 500000 1000000000 42
        = ((500000 ^^^ 500000 / 1024) ^^^ 1000000000) ^^^ 42 :=
  ⟨(C9_fallback_seed .openFailed 500000 1000000000 42 [] [] rfl).1,
   (C9_fallback_seed .openFailed 500000 1000000000 42 [] [] rfl).2.2⟩

/-- Claim C10: a successful open followed by a read of fewer than 4 bytes
resets the seed to zero, so the time/pid fallback is used exactly as in the
open-failure case, whatever partial data was read. -/
theorem C10_partial_read_discarded (n v usec sec pid : Nat) (h : n < 4) :
    ni_srandom_entropy (EntropyRead.readBytes n v) = 0
    ∧ ni_srandom_seed (EntropyRead.readBytes n v) usec sec pid
        = ni_srandom_seed EntropyRead.openFailed usec sec pid := by
  constructor
  · simp [ni_srandom_entropy, h]
  · simp [ni_srandom_seed, ni_srandom_entropy, h]

/-- Witness for C10: a 2-byte read of nonzero data seeds exactly as an open
failure would. -/
theorem C10_partial_read_discarded_witness :
    ni_srandom_entropy (EntropyRead.readBytes 2 48879) = 0
    ∧ ni_srandom_seed (EntropyRead.readBytes 2 48879) 500000 1000000000 42
        = ni_srandom_seed EntropyRead.openFailed 500000 1000000000 42 :=
  C10_partial_read_discarded 2 48879 500000 1000000000 42 (by decide)

/-- Claim C4: the lease object submitted to the XML codec is the IPv4/DHCP
dummy with status FAILED whenever the device is marked failed (regardless of
any lease attached), else the device's lease verbatim when it holds one,
else the IPv4/DHCP placeholder with status RELEASED. -/
theorem C4_render_policy (dev : DhcpDevice) :
    (dev.failed = true →
      dhcp_device_xml_lease dev
        = { family := .inet, kind := .dhcp, state := .failed, payload := 0 })
    ∧ (dev.failed = false → ∀ l, dev.lease = some l → dhcp_device_xml_lease dev = l)
    ∧ (dev.failed = false → dev.lease = none →
      dhcp_device_xml_lease dev
        = { family := .inet, kind := .dhcp, state := .released, payload := 0 }) := by
  refine ⟨fun hf => ?_, fun hf l hl => ?_, fun hf hl => ?_⟩
  · simp [dhcp_device_xml_lease, hf]
  · simp [dhcp_device_xml_lease, hf, hl]
  · simp [dhcp_device_xml_lease, hf, hl]

/-- Witness for C4: a failed device with a granted IPv6 lease attached still
renders the FAILED IPv4/DHCP dummy. -/
theorem C4_render_policy_witness :
    dhcp_device_xml_lease
      { ifname := "eth0", linkType := 1, state := .bound,
        lease := some { family := .inet6, kind := .otherKind, state := .granted, payload := 7 },
        failed := true, config := none, notify := false }
      = { family := .inet, kind := .dhcp, state := .failed, payload := 0 } :=
  (C4_render_policy _).1 rfl

/-- Claim C5: `GET device/<name>` fails with InvalidInput when the name is
absent and NotFound when no device is registered, never changes the
registry, attaches the rendered status on success, and propagates a render
failure as an error with no body. -/
theorem C5_device_get (codec : Codec) (ifname : Option String) (reg : Registry) :
    (dhcp_device_get codec ifname reg).2 = reg
    ∧ (ifname = none → (dhcp_device_get codec ifname reg).1 = .invalidInput)
    ∧ (∀ n, ifname = some n → ni_dhcp_device_find reg n = none →
        (dhcp_device_get codec ifname reg).1 = .notFound)
    ∧ (∀ n dev, ifname = some n → ni_dhcp_device_find reg n = some dev →
        (dhcp_device_xml codec dev = none →
          (dhcp_device_get codec ifname reg).1 = .renderError)
        ∧ (∀ body, dhcp_device_xml codec dev = some body →
          (dhcp_device_get codec ifname reg).1 = .ok body)) := by
  refine ⟨?_, fun h => ?_, fun n h hfind => ?_, fun n dev h hfind => ⟨fun hx => ?_, fun body hx => ?_⟩⟩
  · cases ifname with
    | none => rfl
    | some n =>
      simp only [dhcp_device_get]
      cases hf : ni_dhcp_device_find reg n with
      | none => simp [hf]
      | some dev =>
        cases hx : dhcp_device_xml codec dev with
        | none => simp [hf, hx]
        | some body => simp [hf, hx]
  · simp [h, dhcp_device_get]
  · simp [h, dhcp_device_get, hfind]
  · simp [h, dhcp_device_get, hfind, hx]
  · simp [h, dhcp_device_get, hfind, hx]

/-- Witness for C5: an unknown name yields NotFound with the registry left
empty, and a missing name yields InvalidInput. -/
theorem C5_device_get_witness :
    (dhcp_device_get (fun _ => some ['x']) (some "wlan0") []).1 = GetResult.notFound
    ∧ (dhcp_device_get (fun _ => some ['x']) (some "wlan0") []).2 = []
    ∧ (dhcp_device_get (fun _ => some ['x']) none []).1 = GetResult.invalidInput :=
  ⟨(C5_device_get (fun _ => some ['x']) (some "wlan0") []).2.2.1 "wlan0" rfl rfl,
   (C5_device_get (fun _ => some ['x']) (some "wlan0") []).1,
   (C5_device_get (fun _ => some ['x']) none []).2.1 rfl⟩

/-- A release for a device index below the starting index of a shutdown-loop
suffix never occurs in that suffix. -/
theorem shutdownActions_release_lt (devs : List DhcpDevice) :
    ∀ k j, j < k → (shutdownActions devs k).count (ShutdownAction.release j) = 0 := by
  induction devs with
  | nil => intro k j _; simp [shutdownActions]
  | cons d rest ih =>
    intro k j hj
    have hne : (ShutdownAction.release k = ShutdownAction.release j) = False := by
      simp only [ShutdownAction.release.injEq, eq_iff_iff, iff_false]
      omega
    by_cases hr : shutdownReleases d <;>
      simp [shutdownActions, hr, List.count_cons, hne, ih (k + 1) j (Nat.lt_succ_of_lt hj)]

/-- A stop for a device index below the starting index of a shutdown-loop
suffix never occurs in that suffix. -/
theorem shutdownActions_stop_lt (devs : List DhcpDevice) :
    ∀ k j, j < k → (shutdownActions devs k).count (ShutdownAction.stop j) = 0 := by
  induction devs with
  | nil => intro k j _; simp [shutdownActions]
  | cons d rest ih =>
    intro k j hj
    have hne : (ShutdownAction.stop k = ShutdownAction.stop j) = False := by
      simp only [ShutdownAction.stop.injEq, eq_iff_iff, iff_false]
      omega
    by_cases hr : shutdownReleases d <;>
      simp [shutdownActions, hr, List.count_cons, hne, ih (k + 1) j (Nat.lt_succ_of_lt hj)]

/-- The shutdown loop issues a release for the device at offset `i` of the
suffix starting at index `k` exactly when its guard holds, and then exactly
once. -/
theorem shutdownActions_count_release (devs : List DhcpDevice) :
    ∀ k i (h : i < devs.length),
      (shutdownActions devs k).count (ShutdownAction.release (k + i))
        = if shutdownReleases (devs.get ⟨i, h⟩) then 1 else 0 := by
  induction devs with
  | nil => intro k i h; exact absurd h (Nat.not_lt_zero i)
  | cons d rest ih =>
    intro k i h
    cases i with
    | zero =>
      have hrest := shutdownActions_release_lt rest (k + 1) k (Nat.lt_succ_self k)
      by_cases hr : shutdownReleases d <;>
        simp [shutdownActions, hr, List.count_cons, hrest]
    | succ i' =>
      have hidx : k + (i' + 1) = (k + 1) + i' := by omega
      have hne : (ShutdownAction.release ((k + 1) + i') = ShutdownAction.release k) = False := by
        simp only [ShutdownAction.release.injEq, eq_iff_iff, iff_false]
        omega
      have hrest := ih (k + 1) i' (Nat.lt_of_succ_lt_succ h)
      rw [hidx]
      by_cases hr : shutdownReleases d <;>
        simp [shutdownActions, hr, List.count_cons, hne, hrest]

/-- The shutdown loop issues exactly one stop for the device at offset `i`
of the suffix starting at index `k`. -/
theorem shutdownActions_count_stop (devs : List DhcpDevice) :
    ∀ k i, i < devs.length →
      (shutdownActions devs k).count (ShutdownAction.stop (k + i)) = 1 := by
  induction devs with
  | nil => intro k i h; exact absurd h (Nat.not_lt_zero i)
  | cons d rest ih =>
    intro k i h
    cases i with
    | zero =>
      have hrest := shutdownActions_stop_lt rest (k + 1) k (Nat.lt_succ_self k)
      by_cases hr : shutdownReleases d <;>
        simp [shutdownActions, hr, List.count_cons, hrest]
    | succ i' =>
      have hidx : k + (i' + 1) = (k + 1) + i' := by omega
      have hne : (ShutdownAction.stop ((k + 1) + i') = ShutdownAction.stop k) = False := by
        simp only [ShutdownAction.stop.injEq, eq_iff_iff, iff_false]
        omega
      have hrest := ih (k + 1) i' (Nat.lt_of_succ_lt_succ h)
      rw [hidx]
      by_cases hr : shutdownReleases d <;>
        simp [shutdownActions, hr, List.count_cons, hne, hrest]

/-- The shutdown guard, spelled as the claim states it. -/
theorem shutdownReleases_iff (d : DhcpDevice) :
    shutdownReleases d = true
      ↔ (d.state = .requesting ∨ d.state = .renewing ∨ d.state = .rebinding
          ∨ d.state = .bound) ∧ d.lease ≠ none := by
  cases hs : d.state <;> cases hl : d.lease <;>
    simp [shutdownReleases, hs, hl]

/-- Claim C1: on shutdown, every active device receives a release request
exactly once if and only if its state is REQUESTING, RENEWING, REBINDING or
BOUND and its lease is non-absent (and no release otherwise), every active
device receives exactly one stop request, and the exit status is 0. -/
theorem C1_shutdown (devs : List DhcpDevice) (i : Nat) (h : i < devs.length) :
    ((ni_dhcp_run_shutdown devs).1.count (ShutdownAction.release i) = 1
      ↔ ((devs.get ⟨i, h⟩).state = .requesting ∨ (devs.get ⟨i, h⟩).state = .renewing
          ∨ (devs.get ⟨i, h⟩).state = .rebinding ∨ (devs.get ⟨i, h⟩).state = .bound)
        ∧ (devs.get ⟨i, h⟩).lease ≠ none)
    ∧ (¬ (((devs.get ⟨i, h⟩).state = .requesting ∨ (devs.get ⟨i, h⟩).state = .renewing
          ∨ (devs.get ⟨i, h⟩).state = .rebinding ∨ (devs.get ⟨i, h⟩).state = .bound)
        ∧ (devs.get ⟨i, h⟩).lease ≠ none) →
        (ni_dhcp_run_shutdown devs).1.count (ShutdownAction.release i) = 0)
    ∧ (ni_dhcp_run_shutdown devs).1.count (ShutdownAction.stop i) = 1
    ∧ (ni_dhcp_run_shutdown devs).2 = 0 := by
  have hrel : (ni_dhcp_run_shutdown devs).1.count (ShutdownAction.release i)
      = if shutdownReleases (devs.get ⟨i, h⟩) then 1 else 0 := by
    have hx := shutdownActions_count_release devs 0 i h
    rw [Nat.zero_add] at hx
    exact hx
  have hstop : (ni_dhcp_run_shutdown devs).1.count (ShutdownAction.stop i) = 1 := by
    have hx := shutdownActions_count_stop devs 0 i h
    rw [Nat.zero_add] at hx
    exact hx
  have hiff := shutdownReleases_iff (devs.get ⟨i, h⟩)
  refine ⟨?_, ?_, hstop, rfl⟩
  · rw [hrel]
    by_cases hr : shutdownReleases (devs.get ⟨i, h⟩)
    · rw [if_pos hr]
      exact iff_of_true rfl (hiff.mp hr)
    · rw [if_neg hr]
      exact iff_of_false (by decide) fun hc => hr (hiff.mpr hc)
  · intro hc
    rw [hrel, if_neg fun hb => hc (hiff.mp hb)]

/-- Witness for C1: a single BOUND device with a lease is released exactly
once, stopped exactly once, and the exit status is 0. -/
theorem C1_shutdown_witness :
    (ni_dhcp_run_shutdown
        [{ ifname := "eth0", linkType := 1, state := .bound,
           lease := some { family := .inet, kind := .dhcp, state := .granted, payload := 5 },
           failed := false, config := none, notify := false }]).1.count
        (ShutdownAction.release 0) = 1
    ∧ (ni_dhcp_run_shutdown
        [{ ifname := "eth0", linkType := 1, state := .bound,
           lease := some { family := .inet, kind := .dhcp, state := .granted, payload := 5 },
           failed := false, config := none, notify := false }]).1.count
        (ShutdownAction.stop 0) = 1
    ∧ (ni_dhcp_run_shutdown
        [{ ifname := "eth0", linkType := 1, state := .bound,
           lease := some { family := .inet, kind := .dhcp, state := .granted, payload := 5 },
           failed := false, config := none, notify := false }]).2 = 0 := by
  have h := C1_shutdown
    [{ ifname := "eth0", linkType := 1, state := .bound,
       lease := some { family := .inet, kind := .dhcp, state := .granted, payload := 5 },
       failed := false, config := none, notify := false }] 0 (by decide)
  exact ⟨h.1.mpr (by simp), h.2.2.1, h.2.2.2⟩

/-- Stopping a device keeps its interface name, and stopping twice equals
stopping once. -/
theorem ni_dhcp_device_stop_idem (d : DhcpDevice) :
    (ni_dhcp_device_stop d).ifname = d.ifname
    ∧ ni_dhcp_device_stop (ni_dhcp_device_stop d) = ni_dhcp_device_stop d := by
  constructor <;> rfl

/-- Finding a device after a stop-update of the same name: the stopped image
of whatever was found before. -/
theorem find_updateDevice_stop (reg : Registry) (n : String) :
    ni_dhcp_device_find (updateDevice reg n ni_dhcp_device_stop) n
      = (ni_dhcp_device_find reg n).map ni_dhcp_device_stop := by
  induction reg with
  | nil => rfl
  | cons d rest ih =>
    by_cases hd : d.ifname = n
    · simp [ni_dhcp_device_find, updateDevice, List.find?_cons, hd, ni_dhcp_device_stop]
    · simp only [ni_dhcp_device_find, updateDevice, List.map_cons, if_neg hd] at ih ⊢
      rw [List.find?_cons_of_neg, List.find?_cons_of_neg]
      · exact ih
      · simp [hd]
      · simp [hd]

/-- A stop-update of a stop-update under the same name is one stop-update. -/
theorem updateDevice_stop_idem (reg : Registry) (n : String) :
    updateDevice (updateDevice reg n ni_dhcp_device_stop) n ni_dhcp_device_stop
      = updateDevice reg n ni_dhcp_device_stop := by
  simp only [updateDevice, List.map_map]
  apply List.map_congr_left
  intro d _
  by_cases hd : d.ifname = n
  · simp [Function.comp, hd, ni_dhcp_device_stop]
  · simp [Function.comp, hd]

/-- Claim C6: `DELETE interface/<name>` with a non-absent name always
succeeds, issues exactly a stop request (and never a release) when a device
is registered under the name and no request otherwise, and is idempotent on
the registry. -/
theorem C6_delete_idempotent (n : String) (reg : Registry) :
    (dhcp_interface_delete (some n) reg).1 = .ok
    ∧ ((∃ d ∈ reg, d.ifname = n) →
        (dhcp_interface_delete (some n) reg).2.2 = [ReqAction.stop n])
    ∧ ((¬ ∃ d ∈ reg, d.ifname = n) → (dhcp_interface_delete (some n) reg).2.2 = []
        ∧ (dhcp_interface_delete (some n) reg).2.1 = reg)
    ∧ (∀ m, ReqAction.release m ∉ (dhcp_interface_delete (some n) reg).2.2)
    ∧ (dhcp_interface_delete (some n) (dhcp_interface_delete (some n) reg).2.1).2.1
        = (dhcp_interface_delete (some n) reg).2.1 := by
  have hex : (∃ d ∈ reg, d.ifname = n) ↔ ∃ d, ni_dhcp_device_find reg n = some d := by
    constructor
    · rintro ⟨d, hd, hn⟩
      have hsome : (ni_dhcp_device_find reg n).isSome = true :=
        List.find?_isSome.mpr ⟨d, hd, decide_eq_true hn⟩
      exact Option.isSome_iff_exists.mp hsome
    · rintro ⟨d, hd⟩
      have hmem := List.find?_some hd
      have hmem' := List.mem_of_find?_eq_some hd
      exact ⟨d, hmem', by simpa using hmem⟩
  refine ⟨?_, ?_, ?_, ?_, ?_⟩
  · cases hf : ni_dhcp_device_find reg n <;> simp [dhcp_interface_delete, hf]
  · intro hx
    rcases hex.mp hx with ⟨d, hd⟩
    simp [dhcp_interface_delete, hd]
  · intro hx
    cases hf : ni_dhcp_device_find reg n with
    | none => simp [dhcp_interface_delete, hf]
    | some d => exact absurd (hex.mpr ⟨d, hf⟩) hx
  · intro m
    cases hf : ni_dhcp_device_find reg n <;>
      simp [dhcp_interface_delete, hf]
  · cases hf : ni_dhcp_device_find reg n with
    | none => simp [dhcp_interface_delete, hf]
    | some d =>
      simp only [dhcp_interface_delete, hf]
      rw [find_updateDevice_stop, hf]
      simp [updateDevice_stop_idem]

/-- Witness for C6: deleting "eth0" from a registry holding a bound "eth0"
device issues exactly one stop, and deleting again leaves the registry
unchanged; deleting an unknown name succeeds and changes nothing. -/
theorem C6_delete_idempotent_witness :
    (dhcp_interface_delete (some "eth0")
        [{ ifname := "eth0", linkType := 1, state := .bound,
           lease := some { family := .inet, kind := .dhcp, state := .granted, payload := 5 },
           failed := false, config := none, notify := false }]).2.2
      = [ReqAction.stop "eth0"]
    ∧ (dhcp_interface_delete (some "wlan0") ([] : Registry)).1 = DeleteResult.ok
    ∧ (dhcp_interface_delete (some "wlan0") ([] : Registry)).2.1 = [] := by
  refine ⟨?_, (C6_delete_idempotent "wlan0" []).1, ?_⟩
  · exact (C6_delete_idempotent "eth0" _).2.1
      ⟨{ ifname := "eth0", linkType := 1, state := .bound,
         lease := some { family := .inet, kind := .dhcp, state := .granted, payload := 5 },
         failed := false, config := none, notify := false }, by simp, rfl⟩
  · exact ((C6_delete_idempotent "wlan0" []).2.2.1 (by simp)).2

/-- Claim C3: a `PUT interface/<name>` whose parsed configuration is
administratively up, when no device is registered under the configuration's
name, succeeds and creates exactly one new device carrying the
configuration's name and link type with the desired configuration applied,
with the `reacquire` flag set, and requests acquisition start whenever the
created device has a desired configuration attached (which it always has,
the configuration having just been applied). -/
theorem C3_put_creates_device (n : String) (store : List IfaceConfig)
    (ifp : IfaceConfig) (reconfigChanged : Bool) (reg : Registry)
    (hfind : store.find? (fun c => c.name = n) = some ifp)
    (hup : ifp.up = true)
    (hdev : ni_dhcp_device_find reg ifp.name = none) :
    (dhcp_interface_put (some n) true (some store) reconfigChanged reg).rv = .ok
    ∧ (∃ newDev,
        (dhcp_interface_put (some n) true (some store) reconfigChanged reg).registry
          = newDev :: reg
        ∧ newDev.ifname = ifp.name
        ∧ newDev.linkType = ifp.linkType
        ∧ newDev.config = some ifp
        ∧ (newDev.config.isSome →
            ReqAction.start ifp.name
              ∈ (dhcp_interface_put (some n) true (some store) reconfigChanged reg).actions))
    ∧ (dhcp_interface_put (some n) true (some store) reconfigChanged reg).reacquire = true := by
  have hput : dhcp_interface_put (some n) true (some store) reconfigChanged reg
      = ⟨.ok,
         ni_dhcp_device_reconfigure (ni_dhcp_device_new ifp.name ifp.linkType) ifp :: reg,
         [.start ifp.name], true⟩ := by
    simp [dhcp_interface_put, hfind, hdev, hup, ni_dhcp_device_reconfigure,
      ni_dhcp_device_new]
  refine ⟨by rw [hput], ⟨_, by rw [hput], rfl, rfl, rfl, fun _ => by rw [hput]; simp⟩,
    by rw [hput]⟩

/-- Witness for C3: a fresh admin-up configuration for "eth0" against an
empty registry creates the device and requests a start. -/
theorem C3_put_creates_device_witness :
    (dhcp_interface_put (some "eth0") true
        (some [{ name := "eth0", linkType := 1, up := true, lowerUp := true }])
        false []).rv = PutResult.ok
    ∧ (dhcp_interface_put (some "eth0") true
        (some [{ name := "eth0", linkType := 1, up := true, lowerUp := true }])
        false []).reacquire = true := by
  have h := C3_put_creates_device "eth0"
    [{ name := "eth0", linkType := 1, up := true, lowerUp := true }]
    { name := "eth0", linkType := 1, up := true, lowerUp := true }
    false [] (by rfl) rfl rfl
  exact ⟨h.1, h.2.2⟩

/-- Claim C2 names the behaviour of the admin-down PUT path.  The source
stops an existing device without requesting a release and returns success,
as claimed; but when no device is registered under the name the path still
executes `dev->notify = 1` (because `reacquire` stays 0) on the null result
of `ni_dhcp_device_find`, a null-pointer dereference, instead of returning
success as the claim and the spec state. -/
theorem C2_put_down_paths :
    (dhcp_interface_put (some "eth0") true
        (some [{ name := "eth0", linkType := 1, up := false, lowerUp := false }])
        false
        [{ ifname := "eth0", linkType := 1, state := .bound,
           lease := some { family := .inet, kind := .dhcp, state := .granted, payload := 5 },
           failed := false, config := none, notify := false }]).rv = PutResult.ok
    ∧ (dhcp_interface_put (some "eth0") true
        (some [{ name := "eth0", linkType := 1, up := false, lowerUp := false }])
        false
        [{ ifname := "eth0", linkType := 1, state := .bound,
           lease := some { family := .inet, kind := .dhcp, state := .granted, payload := 5 },
           failed := false, config := none, notify := false }]).actions
        = [ReqAction.stop "eth0"]
    ∧ (dhcp_interface_put (some "eth0") true
        (some [{ name := "eth0", linkType := 1, up := false, lowerUp := false }])
        false []).rv = PutResult.nullDeref
    ∧ (dhcp_interface_put (some "eth0") true
        (some [{ name := "eth0", linkType := 1, up := false, lowerUp := false }])
        false []).rv ≠ PutResult.ok := by
  refine ⟨?_, ?_, ?_, ?_⟩ <;> decide

/-- Counterexample to claim C7: a device whose status renders successfully
to a 70000-byte document makes the framed message exceed the 65536-byte
buffer; the notifier does not emit the exact framed message, and no error is
detected — the buffer is silently overrun. -/
theorem C7_overflow_counterexample :
    ni_dhcp_send_device_event (fun _ => some (List.replicate 70000 'a'))
      { ifname := "eth0", linkType := 1, state := .bound,
        lease := some { family := .inet, kind := .dhcp, state := .granted, payload := 5 },
        failed := false, config := none, notify := false }
      = EventOutcome.bufferOverrun
    ∧ EventOutcome.bufferOverrun
        ≠ EventOutcome.wrote (eventMessage "eth0" (List.replicate 70000 'a')) := by
  constructor
  · have hs : ("POST /system/event/" ++ "eth0" ++ "\n\n").toList.length = 25 := by decide
    have hlen : (eventMessage "eth0" (List.replicate 70000 'a')).length = 70025 := by
      simp only [eventMessage, List.length_append, List.length_replicate, hs]
    have hgt : ¬ (eventMessage "eth0" (List.replicate 70000 'a')).length ≤ 65535 := by
      rw [hlen]
      decide
    show (if (eventMessage "eth0" (List.replicate 70000 'a')).length ≤ 65535
        then EventOutcome.wrote (eventMessage "eth0" (List.replicate 70000 'a'))
        else EventOutcome.bufferOverrun) = EventOutcome.bufferOverrun
    exact if_neg hgt
  · intro hc
    exact EventOutcome.noConfusion hc

/-- Claim C7 as amended: whenever the device's status renders successfully
and the framed message together with its terminating NUL fits the
65536-byte buffer (length at most 65535), the emitted event message is
exactly the literal line `POST /system/event/<ifname>`, a blank line, and
the rendered document, written in a single write; a larger message is not
emitted exactly and its overflow goes undetected. -/
theorem C7_event_framing (codec : Codec) (dev : DhcpDevice) (doc : Xml)
    (hrender : dhcp_device_xml codec dev = some doc)
    (hfit : (("POST /system/event/" ++ dev.ifname ++ "\n\n").toList ++ doc).length ≤ 65535) :
    ni_dhcp_send_device_event codec dev
      = EventOutcome.wrote (("POST /system/event/" ++ dev.ifname ++ "\n\n").toList ++ doc) := by
  have hfit' : (eventMessage dev.ifname doc).length ≤ 65535 := hfit
  unfold ni_dhcp_send_device_event
  rw [hrender]
  show (if (eventMessage dev.ifname doc).length ≤ 65535
      then EventOutcome.wrote (eventMessage dev.ifname doc)
      else EventOutcome.bufferOverrun)
    = EventOutcome.wrote (eventMessage dev.ifname doc)
  exact if_pos hfit'

/-- Witness for C7's amended theorem: a small rendered document for "eth0"
is framed exactly. -/
theorem C7_event_framing_witness :
    ni_dhcp_send_device_event (fun _ => some "<lease/>".toList)
      { ifname := "eth0", linkType := 1, state := .bound,
        lease := some { family := .inet, kind := .dhcp, state := .granted, payload := 5 },
        failed := false, config := none, notify := false }
      = EventOutcome.wrote (("POST /system/event/" ++ "eth0" ++ "\n\n").toList
          ++ "<lease/>".toList) :=
  C7_event_framing (fun _ => some "<lease/>".toList) _ "<lease/>".toList rfl (by decide)

/-- Counterexample to claim C8: a termination signal recorded during the
blocking wait is observed by the check directly after it, and the loop
breaks there — the timer sweep and notification drain of that same
iteration never run, so they do not "complete before shutdown is
honored". -/
theorem C8_sweep_skipped_counterexample :
    runLoop false [{ duringWait := true, afterCheck := false }]
      = [LoopEvent.waitEv, LoopEvent.checkStopEv]
    ∧ LoopEvent.sweepEv ∉ runLoop false [{ duringWait := true, afterCheck := false }]
    ∧ LoopEvent.drainEv ∉ runLoop false [{ duringWait := true, afterCheck := false }] := by
  refine ⟨?_, ?_, ?_⟩ <;> decide

/-- Claim C8 as amended: the termination flag is observed exactly once per
iteration, at a fixed check directly after the wait; a signal recorded
after that check (during the iteration's timer sweep or notification
drain) does not interrupt them — the sweep and drain complete and shutdown
is honored at the next iteration's check; a signal recorded before the
check makes the loop exit at the check, before that iteration's sweep and
drain. -/
theorem C8_loop_granularity (flag : Bool) (sig : IterSignals)
    (rest : List IterSignals) :
    (iterEvents flag).count LoopEvent.checkStopEv = 1
    ∧ runLoop false ({ duringWait := false, afterCheck := true } :: rest)
        = LoopEvent.waitEv :: LoopEvent.checkStopEv :: LoopEvent.sweepEv
            :: LoopEvent.drainEv :: runLoop true rest
    ∧ runLoop true (sig :: rest) = [LoopEvent.waitEv, LoopEvent.checkStopEv] := by
  refine ⟨?_, ?_, ?_⟩
  · cases flag <;> decide
  · simp [runLoop, iterEvents]
  · simp [runLoop, iterEvents]

/-- Witness for C8's amended theorem at a concrete schedule: a signal during
the sweep lets the iteration finish and is honored at the next check. -/
theorem C8_loop_granularity_witness :
    runLoop false
        [{ duringWait := false, afterCheck := true },
         { duringWait := false, afterCheck := false }]
      = [LoopEvent.waitEv, LoopEvent.checkStopEv, LoopEvent.sweepEv,
         LoopEvent.drainEv, LoopEvent.waitEv, LoopEvent.checkStopEv] := by
  have h1 := C8_loop_granularity false { duringWait := false, afterCheck := false }
    [{ duringWait := false, afterCheck := false }]
  have h2 := C8_loop_granularity false { duringWait := false, afterCheck := false } []
  rw [h1.2.1, h2.2.2]

end Wicked
